import Mathlib

/-!
# StellarSwipe-Backends — verification of the fee-transaction data model

A shallow embedding of the repository's declarative persistence entities
(`FeeTransaction`, `User`), its global HTTP exception filter and logging
interceptor, together with the fee-settlement operations that the spec
reconstructs for the parts of the system whose code is not present in the
repository (the Money arithmetic and the fee-transaction state machine).

Conventions:
* TypeORM decimal columns are embedded as a `(precision, scale)` declaration,
  with representable values the rationals `n / 10^scale`, `|n| < 10^precision`.
* Nullable columns become `Option` fields; the TypeScript property
  initializers of the entity classes are mirrored by the `new…` constructor
  functions below.
* `Date` values are epoch instants, embedded as `Nat`.
-/

namespace StellarSwipe

/-- `FeeStatus`, transcribed from the entity file:
PENDING, COLLECTED, FAILED, REFUNDED. -/
inductive FeeStatus where
  | PENDING
  | COLLECTED
  | FAILED
  | REFUNDED
deriving DecidableEq, Repr

/-- `FeeTier`, transcribed from the entity file:
STANDARD, HIGH_VOLUME, VIP, PROMOTIONAL. -/
inductive FeeTier where
  | STANDARD
  | HIGH_VOLUME
  | VIP
  | PROMOTIONAL
deriving DecidableEq, Repr

/-- The `metadata` jsonb column's declared shape: four optional known keys
plus an open key-value remainder (`[key: string]: any`). -/
structure FeeMetadata where
  promotionCode : Option String
  originalFeeRate : Option String
  userTier : Option String
  monthlyVolume : Option String
  extra : List (String × String)
deriving DecidableEq, Repr

/-- The `fee_transactions` entity, column for column.  Decimal columns are
stored as strings in the TypeScript class (`tradeAmount: string = '0'`), so
they are `String` here; nullable columns are `Option`; `Date` columns are
epoch `Nat`s. -/
structure FeeTransaction where
  id : String
  userId : String
  tradeAmount : String
  feeAmount : String
  feeRate : String
  feeTier : FeeTier
  status : FeeStatus
  tradeId : Option String
  stellarTransactionHash : Option String
  assetCode : String
  assetIssuer : String
  platformWalletAddress : Option String
  failureReason : Option String
  retryCount : Int
  metadata : Option FeeMetadata
  createdAt : Nat
  updatedAt : Nat
  collectedAt : Option Nat
deriving DecidableEq, Repr

/-- A freshly constructed `FeeTransaction`, mirroring the TypeScript property
initializers of the entity class exactly: every string column is initialized
to `''` (so the nullable columns hold `some ""`, not `none`), `feeTier` to
STANDARD, `status` to PENDING, `retryCount` to `0`, `metadata` to the empty
object, and all three date columns — including the nullable `collectedAt` —
to `new Date()`, i.e. the construction instant `now`. -/
def newFeeTransaction (now : Nat) : FeeTransaction where
  id := ""
  userId := ""
  tradeAmount := "0"
  feeAmount := "0"
  feeRate := "0"
  feeTier := .STANDARD
  status := .PENDING
  tradeId := some ""
  stellarTransactionHash := some ""
  assetCode := ""
  assetIssuer := ""
  platformWalletAddress := some ""
  failureReason := some ""
  retryCount := 0
  metadata := some ⟨none, none, none, none, []⟩
  createdAt := now
  updatedAt := now
  collectedAt := some now

/-- A TypeORM `decimal` column declaration: total significant digits
(`precision`) and fractional digits (`scale`). -/
structure DecimalColumnDecl where
  precision : Nat
  scale : Nat
deriving DecidableEq, Repr

/-- The rational values representable in a `decimal(precision, scale)`
column: integer multiples of `10^-scale` with fewer than `precision`
significant digits. -/
def DecimalColumnDecl.representable (c : DecimalColumnDecl) (q : ℚ) : Prop :=
  ∃ n : ℤ, q = (n : ℚ) / 10 ^ c.scale ∧ n.natAbs < 10 ^ c.precision

/-- `tradeAmount` column: `@Column({ type: 'decimal', precision: 20, scale: 7 })`. -/
def tradeAmountColumn : DecimalColumnDecl := ⟨20, 7⟩

/-- `feeAmount` column: `@Column({ type: 'decimal', precision: 20, scale: 7 })`. -/
def feeAmountColumn : DecimalColumnDecl := ⟨20, 7⟩

/-- `feeRate` column: `@Column({ type: 'decimal', precision: 5, scale: 4 })`. -/
def feeRateColumn : DecimalColumnDecl := ⟨5, 4⟩

/-- The TypeScript property types used by the entity's monetary fields. -/
inductive TsType where
  | string
  | number
  | date
deriving DecidableEq, Repr

/-- TypeScript type of the `tradeAmount` property (`tradeAmount: string`). -/
def tradeAmountTsType : TsType := .string

/-- TypeScript type of the `feeAmount` property (`feeAmount: string`). -/
def feeAmountTsType : TsType := .string

/-! ## Money arithmetic and refund, modelled from the spec

The repository contains only the storage shape of `FeeTransaction`; the fee
computation and the state machine live outside the visible source, so they
are embedded from the spec's §4.1 and §4.3. -/

/-- Modelled from the spec: the integer division `n / d` rounded
half-to-even ("banker's rounding", §4.1 `multiplyByRate` and the glossary) —
the quotient, plus one when the remainder exceeds half of `d`, and on an
exact half tie the even neighbour. -/
def roundHalfToEven (n d : Nat) : Nat :=
  if 2 * (n % d) < d then n / d
  else if d < 2 * (n % d) then n / d + 1
  else if (n / d) % 2 = 0 then n / d else n / d + 1

/-- The declared scale of Money values: 7 fractional digits. -/
def moneyScale : Nat := 7

/-- The declared scale of fee rates: 4 fractional digits. -/
def rateScale : Nat := 4

/-- Modelled from the spec: `Money.multiplyByRate` (§4.1), missing from the
repository.  The amount is a count of `10^-7` units, the rate a count of
`10^-4` units; the product is brought back to the money scale by dividing by
`10^rateScale` with round-half-to-even, so the result is again a count of
`10^-7` units. -/
def multiplyByRate (amountUnits rateUnits : Nat) : Nat :=
  roundHalfToEven (amountUnits * rateUnits) (10 ^ rateScale)

/-- The spec's error taxonomy (§7), the cases the embedded operations use. -/
inductive FeeError where
  | invalidStateTransition
  | retryExhausted
  | notFound
deriving DecidableEq, Repr

/-- Modelled from the spec: `requestRefund` (§4.3, §6), missing from the
repository.  COLLECTED → REFUNDED via explicit reversal (clearing the
collection timestamp, which per §3 accompanies only status COLLECTED);
re-requesting a refund on an already-REFUNDED transaction is a no-op
returning the same record; any other source state is an
`InvalidStateTransition` error. -/
def requestRefund (tx : FeeTransaction) : Except FeeError FeeTransaction :=
  match tx.status with
  | .COLLECTED => .ok { tx with status := .REFUNDED, collectedAt := none }
  | .REFUNDED => .ok tx
  | _ => .error .invalidStateTransition

/-! ## The `users` entity -/

/-- The `users` entity, column for column.  `bio` is the one nullable column
(`Option`); the `@OneToMany` relation to `Signal` creates no column and is
omitted; `Date` columns are epoch `Nat`s. -/
structure User where
  id : String
  username : String
  wallet_address : String
  bio : Option String
  reputation_score : Int
  created_at : Nat
  updated_at : Nat
deriving DecidableEq, Repr

/-- The columns of the `users` table that carry a uniqueness declaration. -/
inductive UserColumnKey where
  | username
  | wallet_address
deriving DecidableEq, Repr

/-- The value a `User` row holds in a unique-declared column. -/
def UserColumnKey.read : UserColumnKey → User → String
  | .username, u => u.username
  | .wallet_address, u => u.wallet_address

/-- The columns declared `@Column({ unique: true })` in the entity:
`username` and `wallet_address`. -/
def userUniqueColumns : List UserColumnKey := [.username, .wallet_address]

/-- A stored `users` table respects its declared unique constraints: in every
column declared unique, equal values occur only at equal positions. -/
def usersTableOk (t : List User) : Prop :=
  ∀ k ∈ userUniqueColumns, ∀ i j : Fin t.length,
    k.read (t.get i) = k.read (t.get j) → i = j

/-- The declared column default of `reputation_score`:
`@Column({ default: 0 })`. -/
def reputationScoreDefault : Int := 0

/-- A freshly inserted `users` row: generated id and the required columns
supplied by the caller, `bio` null, `reputation_score` filled from its
declared column default, timestamps from the insertion instant. -/
def mkUserRow (id username wallet : String) (now : Nat) : User where
  id := id
  username := username
  wallet_address := wallet
  bio := none
  reputation_score := reputationScoreDefault
  created_at := now
  updated_at := now

/-! ## The global exception filter -/

/-- The payload `HttpException.getResponse()` can return: an object (whose
`message` property may be absent) or a plain string. -/
inductive HttpExceptionResponse where
  | obj (message : Option String)
  | str (s : String)
deriving DecidableEq, Repr

/-- The three shapes `catch(exception: unknown, …)` distinguishes: an
`HttpException` (own status, response payload, fallback `message`), any other
JavaScript `Error` (name, message, stack), or a non-`Error` value. -/
inductive CaughtException where
  | httpException (status : Nat) (response : HttpExceptionResponse) (message : String)
  | jsError (name message stack : String)
  | other
deriving DecidableEq, Repr

/-- JavaScript `a || b` on the optional `message` property of an exception
response object: an absent or empty-string property is falsy and falls back
to `b`. -/
def jsOrElse (a : Option String) (b : String) : String :=
  match a with
  | some s => if s = "" then b else s
  | none => b

/-- The `details` value the filter accumulates: the initial empty object,
the full `HttpException` object response, or `{ name, stack }` of a plain
`Error`. -/
inductive DetailsValue where
  | emptyObj
  | httpResponse (message : Option String)
  | errorInfo (name stack : String)
deriving DecidableEq, Repr

/-- The JSON body `catch` sends: `statusCode`, `message`, `timestamp` and
`path` are always present; `details` is present exactly when the conditional
spread `...(NODE_ENV === "development" && { details })` includes it. -/
structure ErrorBody where
  statusCode : Nat
  message : String
  timestamp : String
  path : String
  details : Option DetailsValue
deriving DecidableEq, Repr

/-- `GlobalExceptionFilter.catch`, embedded statement for statement: status
and message start at 500 / "Internal server error"; an `HttpException`
overrides the status with its own and takes its message from the response
payload (object `message` property, falling back to the exception message);
a plain `Error` contributes its message and `{ name, stack }` details; the
response is sent with `response.status(status)` and the JSON body shown in
the source, the `details` key spread in only when `NODE_ENV` is
`"development"`.  Returns the HTTP status and the body. -/
def globalExceptionCatch (exception : CaughtException)
    (nodeEnv url timestamp : String) : Nat × ErrorBody :=
  let statusMessageDetails : Nat × String × DetailsValue :=
    match exception with
    | .httpException s resp excMsg =>
      match resp with
      | .obj m => (s, jsOrElse m excMsg, .httpResponse m)
      | .str str => (s, str, .emptyObj)
    | .jsError _name msg stack => (500, msg, .errorInfo _name stack)
    | .other => (500, "Internal server error", .emptyObj)
  let status := statusMessageDetails.1
  let message := statusMessageDetails.2.1
  let details := statusMessageDetails.2.2
  (status,
    { statusCode := status
      message := message
      timestamp := timestamp
      path := url
      details := if nodeEnv = "development" then some details else none })

/-! ## The logging interceptor -/

/-- `rxjs`'s `tap` on a finite emission sequence: re-emits every value
unchanged and runs the side-effecting callback on each, collecting the log
lines the callback produces. -/
def rxTap (f : α → String) : List α → List α × List String
  | [] => ([], [])
  | x :: xs =>
    let rest := rxTap f xs
    (x :: rest.1, f x :: rest.2)

/-- The HTTP request/response data the interceptor reads: `method` and `url`
from the request, `statusCode` from the response. -/
structure HttpContext where
  method : String
  url : String
  statusCode : Nat
deriving DecidableEq, Repr

/-- `LoggingInterceptor.intercept`: pipes the handler's observable through
`tap`, whose callback only formats and logs
`[method] url - statusCode - durationMs ms`.  Returns the piped emission
sequence together with the log lines produced. -/
def loggingInterceptorIntercept (ctx : HttpContext) (durationMs : Nat)
    (handled : List α) : List α × List String :=
  rxTap
    (fun _ =>
      "[" ++ ctx.method ++ "] " ++ ctx.url ++ " - " ++
        toString ctx.statusCode ++ " - " ++ toString durationMs ++ "ms")
    handled

/-! ## Sample values used by the witnesses -/

/-- A sample transaction that has reached COLLECTED, for witnessing the
refund behaviour. -/
def collectedSampleTx : FeeTransaction :=
  { newFeeTransaction 1700000000 with
      status := .COLLECTED
      tradeAmount := "1000.0000000"
      feeAmount := "1.0000000"
      feeRate := "0.0010" }

/-- A sample two-row `users` table with pairwise distinct usernames and
wallet addresses. -/
def usersSample : List User :=
  [mkUserRow "u1" "alice" "GAAAA" 0, mkUserRow "u2" "bob" "GBBBB" 0]

/-! ## Helper lemmas -/

/-- Dividing `n` by a positive `d` with round-half-to-even cannot exceed any
`a` with `n ≤ a * d`: the rounding never crosses an integer bound sitting at
or above the exact quotient. -/
theorem roundHalfToEven_le (n d a : Nat) (hd : 0 < d) (h : n ≤ a * d) :
    roundHalfToEven n d ≤ a := by
  have hdm : d * (n / d) + n % d = n := Nat.div_add_mod n d
  have hmod : n % d < d := Nat.mod_lt n hd
  have hq : n / d ≤ a := by
    have h1 : n < (a + 1) * d :=
      lt_of_le_of_lt h ((Nat.mul_lt_mul_right hd).mpr (Nat.lt_succ_self a))
    exact Nat.lt_succ_iff.mp ((Nat.div_lt_iff_lt_mul hd).mpr h1)
  have hstrict : d ≤ 2 * (n % d) → n / d + 1 ≤ a := by
    intro hr
    have hpos : 0 < n % d := by omega
    have hlt : d * (n / d) < d * a := by
      calc d * (n / d) < n := by omega
      _ ≤ a * d := h
      _ = d * a := Nat.mul_comm a d
    have := Nat.lt_of_mul_lt_mul_left hlt
    omega
  unfold roundHalfToEven
  split_ifs with h1 h2 h3
  · exact hq
  · exact hstrict (by omega)
  · exact hq
  · exact hstrict (by omega)

/-- Round-half-to-even lands on a nearest multiple: the result times `d`
differs from `n` by at most `d / 2` (stated multiplied through by two). -/
theorem roundHalfToEven_nearest (n d : Nat) (hd : 0 < d) :
    2 * (d * roundHalfToEven n d) ≤ 2 * n + d ∧
    2 * n ≤ 2 * (d * roundHalfToEven n d) + d := by
  have hdm : d * (n / d) + n % d = n := Nat.div_add_mod n d
  have hmod : n % d < d := Nat.mod_lt n hd
  unfold roundHalfToEven
  split_ifs with h1 h2 h3 <;> (try simp only [Nat.mul_succ]) <;> omega

/-- On an exact half tie, round-half-to-even returns an even number. -/
theorem roundHalfToEven_tie_even (n d : Nat) (h : 2 * (n % d) = d) :
    roundHalfToEven n d % 2 = 0 := by
  unfold roundHalfToEven
  split_ifs with h1 h2 h3 <;> omega

/-- A value representable in a `decimal(precision, scale)` column becomes an
integer when scaled by `10^scale`, and its magnitude scaled by `10^scale`
stays below `10^precision`. -/
theorem DecimalColumnDecl.representable_scaled (c : DecimalColumnDecl) (q : ℚ)
    (h : c.representable q) :
    (q * 10 ^ c.scale).den = 1 ∧ |q| * 10 ^ c.scale < 10 ^ c.precision := by
  obtain ⟨n, hq, hn⟩ := h
  have h10 : (10 : ℚ) ^ c.scale ≠ 0 := by positivity
  have hqs : q * 10 ^ c.scale = (n : ℚ) := by
    rw [hq]
    field_simp
  constructor
  · rw [hqs]
    exact Rat.den_intCast n
  · have habs : |q| * 10 ^ c.scale = |q * 10 ^ c.scale| := by
      rw [abs_mul, abs_of_nonneg (by positivity : (0 : ℚ) ≤ (10 : ℚ) ^ c.scale)]
    rw [habs, hqs]
    have hcast : |(n : ℚ)| = (n.natAbs : ℚ) := by
      rw [Int.cast_natAbs, Int.cast_abs]
    rw [hcast]
    calc (n.natAbs : ℚ) < ((10 ^ c.precision : ℕ) : ℚ) := by exact_mod_cast hn
    _ = (10 : ℚ) ^ c.precision := by push_cast; ring

/-- `rxTap` re-emits exactly the input sequence. -/
theorem rxTap_fst (f : α → String) (xs : List α) : (rxTap f xs).1 = xs := by
  induction xs with
  | nil => rfl
  | cons x xs ih => simp [rxTap, ih]

/-- An `if`-guarded optional field is present exactly when the guard holds. -/
theorem isSome_ite {c : Prop} [Decidable c] (d : DetailsValue) :
    (if c then some d else none).isSome = true ↔ c := by
  split_ifs with h <;> simp [h]

/-! ## Claims -/

/-- C1: the spec claims `collectedAt` is set iff `status == COLLECTED`, and in
particular that a freshly created record (status defaulting to PENDING) has no
`collectedAt`.  The entity's own property initializer
`collectedAt: Date = new Date()` contradicts the nullable "optional collection
timestamp" column it annotates: every freshly constructed record is PENDING
(hence not COLLECTED) yet already carries a collection timestamp. -/
theorem c1_fresh_record_collectedAt_set (now : Nat) :
    (newFeeTransaction now).status = FeeStatus.PENDING ∧
    (newFeeTransaction now).status ≠ FeeStatus.COLLECTED ∧
    (newFeeTransaction now).collectedAt = some now :=
  ⟨rfl, fun h => FeeStatus.noConfusion h, rfl⟩

/-- C2 (counterexample): the quantification over every fee rate fails — at
tradeAmount 1.0000000 (`10^7` scale-7 units) and the rate 2.0000 (`2 * 10^4`
scale-4 units, representable in the declared `decimal(5, 4)` column), the
computed fee is 2.0000000, exceeding the trade amount. -/
theorem c2_fee_bound_counterexample :
    feeRateColumn.representable 2 ∧
    multiplyByRate (10 ^ 7) (2 * 10 ^ 4) = 2 * 10 ^ 7 ∧
    ¬ multiplyByRate (10 ^ 7) (2 * 10 ^ 4) ≤ 10 ^ 7 := by
  refine ⟨⟨20000, by norm_num [feeRateColumn], by norm_num [feeRateColumn]⟩, ?_, ?_⟩ <;>
    norm_num [multiplyByRate, roundHalfToEven, rateScale]

/-- C2 (amended): for every trade amount (scale-7 units) and every fee rate of
at most 1 (scale-4 units), the fee is the product rounded half-to-even back to
the declared scale — definitionally the rounded product, within half a unit of
the exact value, even on exact ties — and `feeAmount ≤ tradeAmount`. -/
theorem c2_fee_rounding_and_bound (a r : Nat) (hr : r ≤ 10 ^ rateScale) :
    multiplyByRate a r = roundHalfToEven (a * r) (10 ^ rateScale) ∧
    2 * (10 ^ rateScale * multiplyByRate a r) ≤ 2 * (a * r) + 10 ^ rateScale ∧
    2 * (a * r) ≤ 2 * (10 ^ rateScale * multiplyByRate a r) + 10 ^ rateScale ∧
    (2 * (a * r % 10 ^ rateScale) = 10 ^ rateScale → multiplyByRate a r % 2 = 0) ∧
    multiplyByRate a r ≤ a := by
  have hd : 0 < 10 ^ rateScale := by norm_num [rateScale]
  have hnear := roundHalfToEven_nearest (a * r) (10 ^ rateScale) hd
  refine ⟨rfl, hnear.1, hnear.2, roundHalfToEven_tie_even (a * r) (10 ^ rateScale), ?_⟩
  exact roundHalfToEven_le (a * r) (10 ^ rateScale) a hd (Nat.mul_le_mul (le_refl a) hr)

/-- C2 (witness): the spec's own scenario — tradeAmount 1000.0000000 (`10^10`
units) at rate 0.0010 (`10` units) gives feeAmount 1.0000000 (`10^7` units). -/
theorem c2_fee_rounding_witness :
    (10 : Nat) ≤ 10 ^ rateScale ∧
    (multiplyByRate (10 ^ 10) 10 = roundHalfToEven (10 ^ 10 * 10) (10 ^ rateScale) ∧
     2 * (10 ^ rateScale * multiplyByRate (10 ^ 10) 10) ≤
       2 * (10 ^ 10 * 10) + 10 ^ rateScale ∧
     2 * (10 ^ 10 * 10) ≤
       2 * (10 ^ rateScale * multiplyByRate (10 ^ 10) 10) + 10 ^ rateScale ∧
     (2 * (10 ^ 10 * 10 % 10 ^ rateScale) = 10 ^ rateScale →
       multiplyByRate (10 ^ 10) 10 % 2 = 0) ∧
     multiplyByRate (10 ^ 10) 10 ≤ 10 ^ 10) ∧
    multiplyByRate (10 ^ 10) 10 = 10 ^ 7 :=
  ⟨by norm_num [rateScale],
   c2_fee_rounding_and_bound (10 ^ 10) 10 (by norm_num [rateScale]),
   by norm_num [multiplyByRate, roundHalfToEven, rateScale]⟩

/-- C3: `requestRefund` is idempotent — on a COLLECTED transaction it yields a
REFUNDED record, and calling it again on that result is a no-op returning the
identical record; on an already-REFUNDED transaction it is a no-op returning
the same record, not an error. -/
theorem c3_requestRefund_idempotent (tx : FeeTransaction) :
    (tx.status = FeeStatus.COLLECTED →
      ∃ tx', requestRefund tx = Except.ok tx' ∧ tx'.status = FeeStatus.REFUNDED ∧
        requestRefund tx' = Except.ok tx') ∧
    (tx.status = FeeStatus.REFUNDED → requestRefund tx = Except.ok tx) := by
  constructor
  · intro h
    refine ⟨{ tx with status := .REFUNDED, collectedAt := none }, ?_, rfl, ?_⟩
    · simp [requestRefund, h]
    · simp [requestRefund]
  · intro h
    simp [requestRefund, h]

/-- C3 (witness): the refund behaviour at a concrete COLLECTED transaction. -/
theorem c3_requestRefund_witness :
    collectedSampleTx.status = FeeStatus.COLLECTED ∧
    ∃ tx', requestRefund collectedSampleTx = Except.ok tx' ∧
      tx'.status = FeeStatus.REFUNDED ∧ requestRefund tx' = Except.ok tx' :=
  ⟨rfl, (c3_requestRefund_idempotent collectedSampleTx).1 rfl⟩

/-- C4: the spec claims `failureReason` is set iff `status == FAILED`.  The
entity's property initializer `failureReason: string = ''` contradicts the
nullable "optional failure reason" column it annotates: every freshly
constructed record is PENDING (hence not FAILED) yet carries a non-null
failure reason, the empty string. -/
theorem c4_fresh_record_failureReason_set (now : Nat) :
    (newFeeTransaction now).status = FeeStatus.PENDING ∧
    (newFeeTransaction now).status ≠ FeeStatus.FAILED ∧
    (newFeeTransaction now).failureReason = some "" :=
  ⟨rfl, fun h => FeeStatus.noConfusion h, rfl⟩

/-- C5: every value representable in the `feeRate` column — declared
`decimal(5, 4)` — is a decimal ratio with 4 fractional digits (scaling by
`10^4` gives an integer) and magnitude below 10. -/
theorem c5_feeRate_four_digit (q : ℚ) (h : feeRateColumn.representable q) :
    feeRateColumn.scale = 4 ∧ feeRateColumn.precision = 5 ∧
    (q * 10 ^ 4).den = 1 ∧ |q| < 10 := by
  have hd := feeRateColumn.representable_scaled q h
  have hs : feeRateColumn.scale = 4 := rfl
  have hp : feeRateColumn.precision = 5 := rfl
  rw [hs, hp] at hd
  obtain ⟨hden, hbound⟩ := hd
  norm_num at hbound
  exact ⟨hs, hp, hden, by linarith⟩

/-- C5 (witness): the fee rate 0.0010 of the entity's own comment. -/
theorem c5_feeRate_witness :
    feeRateColumn.representable (1 / 1000) ∧
    (feeRateColumn.scale = 4 ∧ feeRateColumn.precision = 5 ∧
     ((1 / 1000 : ℚ) * 10 ^ 4).den = 1 ∧ |(1 / 1000 : ℚ)| < 10) := by
  have hrep : feeRateColumn.representable (1 / 1000) :=
    ⟨10, by norm_num [feeRateColumn], by norm_num [feeRateColumn]⟩
  exact ⟨hrep, c5_feeRate_four_digit (1 / 1000) hrep⟩

/-- C6: both Money columns (`tradeAmount`, `feeAmount`) are declared
`decimal(20, 7)`: representable values scaled by `10^7` are integers and stay
below `10^13` in magnitude, and the TypeScript properties are strings, not
binary floating-point numbers. -/
theorem c6_money_fixed_point (q : ℚ)
    (h : tradeAmountColumn.representable q ∨ feeAmountColumn.representable q) :
    tradeAmountColumn = DecimalColumnDecl.mk 20 7 ∧
    feeAmountColumn = DecimalColumnDecl.mk 20 7 ∧
    (q * 10 ^ 7).den = 1 ∧ |q| < 10 ^ 13 ∧
    tradeAmountTsType = TsType.string ∧ feeAmountTsType = TsType.string ∧
    tradeAmountTsType ≠ TsType.number ∧ feeAmountTsType ≠ TsType.number := by
  have hrep : tradeAmountColumn.representable q := h.elim id id
  obtain ⟨hden, hbound⟩ := tradeAmountColumn.representable_scaled q hrep
  rw [show tradeAmountColumn.scale = 7 from rfl] at hden hbound
  rw [show tradeAmountColumn.precision = 20 from rfl] at hbound
  norm_num at hbound
  refine ⟨rfl, rfl, hden, by nlinarith [abs_nonneg q], rfl, rfl, ?_, ?_⟩ <;>
    exact fun hne => TsType.noConfusion hne

/-- C6 (witness): the amount 1000.0000000 (`10^10` scale-7 units). -/
theorem c6_money_witness :
    tradeAmountColumn.representable 1000 ∧
    (tradeAmountColumn = DecimalColumnDecl.mk 20 7 ∧
     feeAmountColumn = DecimalColumnDecl.mk 20 7 ∧
     ((1000 : ℚ) * 10 ^ 7).den = 1 ∧ |(1000 : ℚ)| < 10 ^ 13 ∧
     tradeAmountTsType = TsType.string ∧ feeAmountTsType = TsType.string ∧
     tradeAmountTsType ≠ TsType.number ∧ feeAmountTsType ≠ TsType.number) := by
  have hrep : tradeAmountColumn.representable 1000 :=
    ⟨10 ^ 10, by norm_num [tradeAmountColumn], by norm_num [tradeAmountColumn]⟩
  exact ⟨hrep, c6_money_fixed_point 1000 (Or.inl hrep)⟩

/-- C7: `FeeStatus` takes exactly the four values PENDING, COLLECTED, FAILED,
REFUNDED (every status is one of them and they are pairwise distinct), and
PENDING is the default status of every freshly created `FeeTransaction`. -/
theorem c7_feeStatus_enum_and_default :
    (∀ s : FeeStatus, s = FeeStatus.PENDING ∨ s = FeeStatus.COLLECTED ∨
      s = FeeStatus.FAILED ∨ s = FeeStatus.REFUNDED) ∧
    ([FeeStatus.PENDING, FeeStatus.COLLECTED, FeeStatus.FAILED,
      FeeStatus.REFUNDED] : List FeeStatus).Nodup ∧
    ∀ now, (newFeeTransaction now).status = FeeStatus.PENDING :=
  ⟨fun s => by cases s <;> simp, by decide, fun _ => rfl⟩

/-- C8: the global exception filter replies with the exception's own status
for an `HttpException` and 500 otherwise; the body always carries
`statusCode` (equal to the HTTP status), `message`, `timestamp` and `path`;
and the `details` key is present exactly when `NODE_ENV` is
`"development"`. -/
theorem c8_exception_filter (exc : CaughtException) (nodeEnv url ts : String) :
    ((globalExceptionCatch exc nodeEnv url ts).1 =
      match exc with
      | .httpException s _ _ => s
      | _ => 500) ∧
    (globalExceptionCatch exc nodeEnv url ts).2.statusCode =
      (globalExceptionCatch exc nodeEnv url ts).1 ∧
    (globalExceptionCatch exc nodeEnv url ts).2.path = url ∧
    (globalExceptionCatch exc nodeEnv url ts).2.timestamp = ts ∧
    ((globalExceptionCatch exc nodeEnv url ts).2.details.isSome ↔
      nodeEnv = "development") := by
  obtain ⟨s, resp, m⟩ | ⟨nm, ms, st⟩ | _ := exc
  · cases resp <;> exact ⟨rfl, rfl, rfl, rfl, isSome_ite _⟩
  · exact ⟨rfl, rfl, rfl, rfl, isSome_ite _⟩
  · exact ⟨rfl, rfl, rfl, rfl, isSome_ite _⟩

/-- C9: the logging interceptor is observationally transparent — whatever the
handler's observable emits is re-emitted unchanged; the `tap` callback only
produces log lines. -/
theorem c9_interceptor_transparent (ctx : HttpContext) (durationMs : Nat)
    (handled : List α) :
    (loggingInterceptorIntercept ctx durationMs handled).1 = handled :=
  rxTap_fst _ handled

/-- C10: in a `users` table respecting the entity's unique declarations, no
two records share a username and no two records share a wallet address, and a
freshly inserted row's `reputation_score` is 0 from its declared default. -/
theorem c10_users_unique_and_default (t : List User) (h : usersTableOk t) :
    (∀ u₁ ∈ t, ∀ u₂ ∈ t, u₁.username = u₂.username → u₁ = u₂) ∧
    (∀ u₁ ∈ t, ∀ u₂ ∈ t, u₁.wallet_address = u₂.wallet_address → u₁ = u₂) ∧
    ∀ id username wallet now, (mkUserRow id username wallet now).reputation_score = 0 := by
  refine ⟨?_, ?_, fun _ _ _ _ => rfl⟩
  · intro u₁ h₁ u₂ h₂ heq
    obtain ⟨i, hi⟩ := List.mem_iff_get.mp h₁
    obtain ⟨j, hj⟩ := List.mem_iff_get.mp h₂
    have hij : i = j := h .username (by simp [userUniqueColumns]) i j (by
      show (t.get i).username = (t.get j).username
      rw [hi, hj]; exact heq)
    rw [← hi, ← hj, hij]
  · intro u₁ h₁ u₂ h₂ heq
    obtain ⟨i, hi⟩ := List.mem_iff_get.mp h₁
    obtain ⟨j, hj⟩ := List.mem_iff_get.mp h₂
    have hij : i = j := h .wallet_address (by simp [userUniqueColumns]) i j (by
      show (t.get i).wallet_address = (t.get j).wallet_address
      rw [hi, hj]; exact heq)
    rw [← hi, ← hj, hij]

/-- C10 (witness): a concrete two-row table with distinct usernames and
wallet addresses satisfies the constraints, so its usernames identify rows. -/
theorem c10_users_witness :
    usersTableOk usersSample ∧
    (∀ u₁ ∈ usersSample, ∀ u₂ ∈ usersSample,
      u₁.username = u₂.username → u₁ = u₂) := by
  have hok : usersTableOk usersSample := by
    unfold usersTableOk
    decide
  exact ⟨hok, (c10_users_unique_and_default usersSample hok).1⟩

end StellarSwipe
